import Mathlib

/-!
Shallow embedding of the Vulkan bootstrap backend in
`src/w_gfx/src/backend/vulkan.rs` of the `wunderscore` repository.

Native driver calls (`ash` entry points) are modelled as environment
records holding each call's result; machine integers (`u32` versions,
flag bitmasks) are `Nat` (no arithmetic here ever overflows 32 bits);
fallible native calls return `Except VkResult _` where `VkResult` is the
error's display string, matching `impl From<vk::Result> for Error`.
Compile-time `cfg!` constants (`VALIDATION_ENABLED`, `target_os = "macos"`)
become explicit boolean parameters.
-/

namespace Wunderscore

/-- Display string of a failed `vk::Result`, as consumed by
`impl From<vk::Result> for Error` (vulkan.rs lines 23-27). -/
abbrev VkResult := String

/-- Mirror of `w_gfx::backend::Error` (backend.rs): a backend tag plus a
message. The Vulkan backend always constructs it with backend "Vulkan". -/
structure Error where
  backend : String
  msg : String
deriving DecidableEq, Repr

/-- Mirror of `Error::new` in vulkan.rs lines 15-22. -/
def Error.new (msg : String) : Error :=
  { backend := "Vulkan", msg := msg }

/-- Mirror of `impl From<vk::Result> for Error` (vulkan.rs lines 23-27). -/
def Error.ofVk (r : VkResult) : Error :=
  Error.new r

/-- The `?` operator on a native `vk::Result`-returning call inside a
function returning `Result<_, Error>`: converts the error via `From`. -/
def liftVk : Except VkResult α → Except Error α
  | .ok a => .ok a
  | .error r => .error (Error.ofVk r)

/-- Mirror of `vk::make_api_version` (variant, major, minor, patch packed
into a `u32`; all values used in the source are far below 2^32). -/
def make_api_version (variant major minor patch : Nat) : Nat :=
  (variant <<< 29) ||| (major <<< 22) ||| (minor <<< 12) ||| patch

/-- Mirror of `vk::API_VERSION_1_0`. -/
def API_VERSION_1_0 : Nat := make_api_version 0 1 0 0

/-- Mirror of `PORTABILITY_MACOS_VERSION` (vulkan.rs line 10). -/
def PORTABILITY_MACOS_VERSION : Nat := make_api_version 0 1 3 216

/-- Bit of `vk::QueueFlags::GRAPHICS` inside the queue-flags bitmask. -/
def GRAPHICS_BIT : Nat := 1

/-- Mirror of ash's `Flags::contains`: `self & other == other`. -/
def queueFlagsContains (flags other : Nat) : Bool :=
  flags &&& other == other

/-- Severity flag bits of `vk::DebugUtilsMessageSeverityFlagsEXT`; the
derived `Ord` on the ash flag type compares the raw bits numerically. -/
def SEVERITY_VERBOSE : Nat := 0x1

/-- Severity bit for INFO messages. -/
def SEVERITY_INFO : Nat := 0x10

/-- Severity bit for WARNING messages. -/
def SEVERITY_WARNING : Nat := 0x100

/-- Severity bit for ERROR messages. -/
def SEVERITY_ERROR : Nat := 0x1000

/-- Mirror of `vk::FALSE` returned by the debug callback. -/
def vkFALSE : Nat := 0

/-- Layer and extension name constants used by the source. -/
def VALIDATION_LAYER_NAME : String := "VK_LAYER_KHRONOS_validation"

/-- Mirror of `vk::EXT_DEBUG_UTILS_NAME`. -/
def EXT_DEBUG_UTILS_NAME : String := "VK_EXT_debug_utils"

/-- Mirror of `vk::KHR_GET_PHYSICAL_DEVICE_PROPERTIES2_NAME`. -/
def KHR_GET_PHYSICAL_DEVICE_PROPERTIES2_NAME : String :=
  "VK_KHR_get_physical_device_properties2"

/-- Mirror of `vk::KHR_PORTABILITY_ENUMERATION_NAME`. -/
def KHR_PORTABILITY_ENUMERATION_NAME : String := "VK_KHR_portability_enumeration"

/-- Mirror of `vk::KHR_PORTABILITY_SUBSET_NAME`. -/
def KHR_PORTABILITY_SUBSET_NAME : String := "VK_KHR_portability_subset"

/-- A physical device as the bootstrap observes it through the instance:
its properties name, its queue-family flag list (one bitmask per family,
in family-index order, from
`get_physical_device_queue_family_properties`), and the result of the
surface-support query `get_physical_device_surface_support(device, familyIndex,
surface)` — `none` models a failed query (`Err`), `some b` a successful one.
Queries are functions of (surface, family index) only: for a fixed device
and surface they are deterministic. -/
structure PhysicalDevice where
  name : String
  queueFamilies : List Nat
  surfaceSupport : Nat → Nat → Option Bool

/-- Mirror of `QueueFamilyIndices` (vulkan.rs lines 257-261). -/
structure QueueFamilyIndices where
  graphics : Nat
  present : Nat
deriving DecidableEq, Repr

/-- Mirror of `SuitabilityError` (vulkan.rs lines 298-299). -/
structure SuitabilityError where
  msg : String
deriving DecidableEq, Repr

/-- Rust's `Iterator::position`: index of the first element satisfying the
predicate (used at vulkan.rs lines 273-276). -/
def position (pred : α → Bool) : List α → Option Nat
  | [] => none
  | x :: xs => if pred x then some 0 else (position pred xs).map (· + 1)

/-- The `for (index, _properties) in properties.iter().enumerate()` loop of
vulkan.rs lines 278-288: walking the family list with running index `k`,
return the first index whose surface-support query `unwrap_or(false)`
yields true. -/
def presentSearch (ss : Nat → Option Bool) : List Nat → Nat → Option Nat
  | [], _ => none
  | _ :: rest, k => if (ss k).getD false then some k else presentSearch ss rest (k + 1)

/-- Mirror of `QueueFamilyIndices::get` (vulkan.rs lines 263-295), with the
enumerated family properties and the device/surface-bound query closure as
arguments in place of `(entry, instance, surface, physical_device)`. -/
def QueueFamilyIndices.get (props : List Nat) (ss : Nat → Option Bool) :
    Except SuitabilityError QueueFamilyIndices :=
  let graphics := position (fun p => queueFlagsContains p GRAPHICS_BIT) props
  let present := presentSearch ss props 0
  match graphics, present with
  | some graphics, some present => .ok { graphics := graphics, present := present }
  | _, _ => .error { msg := "Missing required queue families" }

/-- Mirror of `check_physical_device` (vulkan.rs lines 332-340). -/
def check_physical_device (surface : Nat) (d : PhysicalDevice) :
    Except SuitabilityError Unit :=
  match QueueFamilyIndices.get d.queueFamilies (d.surfaceSupport surface) with
  | .ok _ => .ok ()
  | .error e => .error e

/-- The suitability check outcome as a boolean. -/
def suitable (surface : Nat) (d : PhysicalDevice) : Bool :=
  match check_physical_device surface d with
  | .ok _ => true
  | .error _ => false

/-- The error produced at vulkan.rs line 329 when the selection loop
finishes without a suitable device. -/
def noSuitableDeviceError : Error := Error.new "No suitable physical device"

/-- The `for physical_device in devices` loop of `pick_physical_device`
(vulkan.rs lines 313-329): a failed check logs a warning and continues, a
passed check returns the device immediately; a finished loop yields
`noSuitableDeviceError`. -/
def pickLoop (surface : Nat) : List PhysicalDevice → Except Error PhysicalDevice
  | [] => .error noSuitableDeviceError
  | d :: rest =>
    match check_physical_device surface d with
    | .error _ => pickLoop surface rest
    | .ok _ => .ok d

/-- Mirror of `pick_physical_device` (vulkan.rs lines 308-330): the `?` on
`enumerate_physical_devices` followed by the selection loop. -/
def pick_physical_device (enumerated : Except VkResult (List PhysicalDevice))
    (surface : Nat) : Except Error PhysicalDevice :=
  match enumerated with
  | .error r => .error (Error.ofVk r)
  | .ok devices => pickLoop surface devices

/-- Instrumented selection loop: same result as `pickLoop`, paired with the
names of the devices on which the suitability check was actually run. -/
def pickLoopTraced (surface : Nat) :
    List PhysicalDevice → Except Error PhysicalDevice × List String
  | [] => (.error noSuitableDeviceError, [])
  | d :: rest =>
    match check_physical_device surface d with
    | .error _ =>
      let (r, t) := pickLoopTraced surface rest
      (r, d.name :: t)
    | .ok _ => (.ok d, [d.name])

/-- The parameters assembled for the native `create_instance` call
(vulkan.rs lines 220-244): extension list, layer list, the portability
enumeration flag, and whether the debug-messenger descriptor was chained
via `push_next`. -/
structure InstanceCreateInfo where
  extensions : List String
  layers : List String
  enumeratePortabilityFlag : Bool
  debugChain : Bool
deriving DecidableEq, Repr

/-- Environment of `create_instance`: the results of each native call it
performs, and the `cfg!(target_os = "macos")` compile-time constant. -/
structure InstanceEnv where
  tryEnumerateInstanceVersion : Except VkResult (Option Nat)
  enumerateRequiredExtensions : Except VkResult (List String)
  enumerateInstanceLayerProperties : Except VkResult (List String)
  createInstanceNative : InstanceCreateInfo → Except VkResult Nat
  createDebugUtilsMessengerNative : Except VkResult Nat
  isMacos : Bool

/-- The extension/layer/flag assembly of vulkan.rs lines 184-228: the
required presentation extensions, the debug-utils extension when
validation is on (line 186-188), the portability additions and flag when
on macOS with a new enough instance version (lines 190-199), the
validation layer list (lines 213-218), and the `push_next` debug chain
(lines 242-244). -/
def assemble_instance_info (isMacos validationEnabled : Bool) (instanceVersion : Nat)
    (requiredExtensions : List String) : InstanceCreateInfo :=
  let exts1 :=
    if validationEnabled then requiredExtensions ++ [EXT_DEBUG_UTILS_NAME]
    else requiredExtensions
  let portability := isMacos && decide (PORTABILITY_MACOS_VERSION ≤ instanceVersion)
  let extensions :=
    if portability then
      exts1 ++ [KHR_GET_PHYSICAL_DEVICE_PROPERTIES2_NAME,
        KHR_PORTABILITY_ENUMERATION_NAME]
    else exts1
  { extensions := extensions,
    layers := if validationEnabled then [VALIDATION_LAYER_NAME] else [],
    enumeratePortabilityFlag := portability,
    debugChain := validationEnabled }

/-- Mirror of `create_instance` (vulkan.rs lines 165-255).
`validationEnabled` is the compile-time `VALIDATION_ENABLED` constant;
`enumerateInstanceLayerProperties` yields the layer names (the source
collects them into a `HashSet`, used only for a membership test, so the
list with `List.contains` is an exact model). Instance and messenger
handles are opaque `Nat`s. -/
def create_instance (env : InstanceEnv) (validationEnabled : Bool) :
    Except Error (Nat × Option Nat) :=
  match env.tryEnumerateInstanceVersion with
  | .error r => .error (Error.ofVk r)
  | .ok versionOpt =>
    let instanceVersion := versionOpt.getD API_VERSION_1_0
    match env.enumerateRequiredExtensions with
    | .error r => .error (Error.ofVk r)
    | .ok requiredExtensions =>
      match env.enumerateInstanceLayerProperties with
      | .error r => .error (Error.ofVk r)
      | .ok availableLayers =>
        if validationEnabled && !(availableLayers.contains VALIDATION_LAYER_NAME) then
          .error (Error.new "Validation layers requested but not supported.")
        else
          let info :=
            assemble_instance_info env.isMacos validationEnabled instanceVersion
              requiredExtensions
          match env.createInstanceNative info with
          | .error r => .error (Error.ofVk r)
          | .ok inst =>
            if validationEnabled then
              match env.createDebugUtilsMessengerNative with
              | .error r => .error (Error.ofVk r)
              | .ok msgr => .ok (inst, some msgr)
            else .ok (inst, none)

/-- Mirror of the `queue_priorities` slice `&[1.0]` (vulkan.rs line 119);
the `f32` literal 1.0 is exact, modelled as the rational 1. -/
def queue_priorities : List ℚ := [1]

/-- Mirror of `vk::DeviceQueueCreateInfo` as filled at vulkan.rs
lines 122-127: family index, queue count, and the priorities slice. -/
structure DeviceQueueCreateInfo where
  queue_family_index : Nat
  queue_count : Nat
  p_queue_priorities : List ℚ
deriving DecidableEq, Repr

/-- The `HashSet` of vulkan.rs lines 115-117 after inserting
`indices.graphics` and `indices.present`: the set with one element when
the two coincide, two elements otherwise (hash-set iteration order is
unspecified; every claim about it is order-insensitive). -/
def unique_queue_indices (indices : QueueFamilyIndices) : List Nat :=
  if indices.graphics = indices.present then [indices.graphics]
  else [indices.graphics, indices.present]

/-- The `queue_infos` vector of vulkan.rs lines 120-128: one descriptor
per unique family index, each requesting `queue_priorities.len()` (= 1)
queues at the priorities `&[1.0]`. -/
def device_queue_infos (indices : QueueFamilyIndices) : List DeviceQueueCreateInfo :=
  (unique_queue_indices indices).map fun i =>
    { queue_family_index := i,
      queue_count := queue_priorities.length,
      p_queue_priorities := queue_priorities }

/-- The parameters assembled for the native `create_device` call
(vulkan.rs lines 139-146): queue descriptors and device extensions. -/
structure DeviceCreateInfo where
  queue_infos : List DeviceQueueCreateInfo
  extensions : List String
deriving DecidableEq, Repr

/-- Environment of `Vulkan::create_device`: results of the native calls it
performs and the macOS compile-time constant. `getDeviceQueue device family
index` models the infallible `Device::get_device_queue`. -/
structure DeviceEnv where
  tryEnumerateInstanceVersion : Except VkResult (Option Nat)
  enumeratePhysicalDevices : Except VkResult (List PhysicalDevice)
  createDeviceNative : PhysicalDevice → DeviceCreateInfo → Except VkResult Nat
  getDeviceQueue : Nat → Nat → Nat → Nat
  isMacos : Bool

/-- Mirror of the `Vulkan` struct's mutable bootstrap fields (vulkan.rs
lines 29-38); `entry` and `instance` are always-present opaque handles
and carry no state the claims mention, so they are omitted. -/
structure VulkanState where
  debug_utils_messenger : Option Nat
  surface : Option Nat
  device : Option Nat
  physical_device : Option PhysicalDevice
  graphics_queue : Option Nat
  present_queue : Option Nat

/-- Outcome of one `Vulkan::create_device` call: `Ok(())`, an `Err`
returned through `?` or `ok_or`, or a panic of the `.unwrap()` at
vulkan.rs line 113. -/
inductive CDResult
  | ok
  | err (e : Error)
  | panicked
deriving DecidableEq, Repr

/-- Mirror of `Vulkan::create_device` (vulkan.rs lines 103-162), returning
the call outcome together with the state of `self` afterwards. Every
early return leaves the state untouched; the four `self` field writes
(lines 154-159) happen only after the last fallible call succeeded. -/
def create_device (env : DeviceEnv) (s : VulkanState) : CDResult × VulkanState :=
  match s.surface with
  | none => (.err (Error.new "Can't create device without a surface"), s)
  | some surface =>
    match env.tryEnumerateInstanceVersion with
    | .error r => (.err (Error.ofVk r), s)
    | .ok versionOpt =>
      let instanceVersion := versionOpt.getD API_VERSION_1_0
      match pick_physical_device env.enumeratePhysicalDevices surface with
      | .error e => (.err e, s)
      | .ok physical_device =>
        match QueueFamilyIndices.get physical_device.queueFamilies
            (physical_device.surfaceSupport surface) with
        | .error _ => (.panicked, s)
        | .ok indices =>
          let queue_infos := device_queue_infos indices
          let extensions :=
            if env.isMacos && decide (PORTABILITY_MACOS_VERSION ≤ instanceVersion) then
              [KHR_PORTABILITY_SUBSET_NAME]
            else []
          let info : DeviceCreateInfo :=
            { queue_infos := queue_infos, extensions := extensions }
          match env.createDeviceNative physical_device info with
          | .error r => (.err (Error.ofVk r), s)
          | .ok device =>
            (.ok,
              { s with
                graphics_queue := some (env.getDeviceQueue device indices.graphics 0),
                present_queue := some (env.getDeviceQueue device indices.present 0),
                device := some device,
                physical_device := some physical_device })

/-- One native destruction action performed by `Vulkan::destroy`. -/
inductive DestroyAction
  | debugUtilsMessenger
  | device
  | surface
  | inst
deriving DecidableEq, Repr

/-- Mirror of `Vulkan::destroy` (vulkan.rs lines 57-81) as the ordered
trace of native destruction calls it issues: each optional handle is
destroyed only when `Some`, the instance always and last. -/
def destroy (s : VulkanState) : List DestroyAction :=
  (if s.debug_utils_messenger.isSome then [DestroyAction.debugUtilsMessenger] else []) ++
    (if s.device.isSome then [DestroyAction.device] else []) ++
      (if s.surface.isSome then [DestroyAction.surface] else []) ++
        [DestroyAction.inst]

/-- Host log levels reachable from the debug callback. -/
inductive LogLevel
  | error
  | warn
  | debug
  | trace
deriving DecidableEq, Repr

/-- The record emitted to the host logger: level, the message-type
category flags, and the message text (the `({:?}) {}` format of
vulkan.rs lines 352-358). -/
structure LoggedMessage where
  level : LogLevel
  category : Nat
  text : String
deriving DecidableEq, Repr

/-- Mirror of `debug_callback` (vulkan.rs lines 342-362): severity and
type are flag bitmasks; the derived `Ord` of ash flag types compares raw
bits, so `severity >= ERROR` is numeric `≤` on `Nat`. Returns the logged
record and the `vk::FALSE` result. -/
def debug_callback (severity typeFlags : Nat) (message : String) :
    LoggedMessage × Nat :=
  let level :=
    if SEVERITY_ERROR ≤ severity then LogLevel.error
    else if SEVERITY_WARNING ≤ severity then LogLevel.warn
    else if SEVERITY_INFO ≤ severity then LogLevel.debug
    else LogLevel.trace
  ({ level := level, category := typeFlags, text := message }, vkFALSE)

/-- Concrete unsuitable device (no queue families at all). -/
def badDevice : PhysicalDevice :=
  { name := "bad", queueFamilies := [], surfaceSupport := fun _ _ => some false }

/-- Concrete instance environment whose enumerated layer list lacks the
validation layer. -/
def envNoValidationLayer : InstanceEnv :=
  { tryEnumerateInstanceVersion := .ok none,
    enumerateRequiredExtensions := .ok ["VK_KHR_surface"],
    enumerateInstanceLayerProperties := .ok ["VK_LAYER_MESA_overlay"],
    createInstanceNative := fun _ => .ok 7,
    createDebugUtilsMessengerNative := .ok 8,
    isMacos := false }

/-- Concrete device environment whose physical-device enumeration fails. -/
def envEnumFail : DeviceEnv :=
  { tryEnumerateInstanceVersion := .ok none,
    enumeratePhysicalDevices := .error "ERROR_OUT_OF_HOST_MEMORY",
    createDeviceNative := fun _ _ => .ok 1,
    getDeviceQueue := fun _ _ _ => 0,
    isMacos := false }

/-- Concrete bootstrap state with a surface bound and nothing else. -/
def stateWithSurface : VulkanState :=
  { debug_utils_messenger := none, surface := some 1, device := none,
    physical_device := none, graphics_queue := none, present_queue := none }

/-- Concrete bootstrap state with no surface bound. -/
def stateNoSurface : VulkanState :=
  { debug_utils_messenger := none, surface := none, device := none,
    physical_device := none, graphics_queue := none, present_queue := none }

/-! Helper lemmas about the search primitives and the selection loop. -/

theorem position_spec {pred : Nat → Bool} {l : List Nat} {i : Nat}
    (h : position pred l = some i) :
    i < l.length ∧ pred (l.getD i 0) = true ∧ ∀ j, j < i → pred (l.getD j 0) = false := by
  induction l generalizing i with
  | nil => simp [position] at h
  | cons x xs ih =>
    by_cases hp : pred x
    · simp [position, hp] at h
      subst h
      simpa using hp
    · simp [position, hp] at h
      obtain ⟨i', hi', rfl⟩ := h
      obtain ⟨h1, h2, h3⟩ := ih hi'
      refine ⟨by simp only [List.length_cons]; omega, by simpa using h2, ?_⟩
      intro j hj
      cases j with
      | zero => simpa using hp
      | succ j =>
        simp only [List.getD_cons_succ]
        exact h3 j (by omega)

theorem position_isSome_of_exists (pred : Nat → Bool) {l : List Nat} (j : Nat)
    (hj : j < l.length) (hpred : pred (l.getD j 0) = true) :
    ∃ i, position pred l = some i := by
  induction l generalizing j with
  | nil => simp at hj
  | cons x xs ih =>
    by_cases hp : pred x
    · exact ⟨0, by simp [position, hp]⟩
    · cases j with
      | zero => exact absurd (by simpa using hpred) hp
      | succ j =>
        obtain ⟨i, hi⟩ := ih j (by simp only [List.length_cons] at hj; omega)
          (by simpa using hpred)
        exact ⟨i + 1, by simp [position, hp, hi]⟩

theorem position_eq_none_of_all {pred : Nat → Bool} {l : List Nat}
    (h : ∀ j, j < l.length → pred (l.getD j 0) = false) :
    position pred l = none := by
  induction l with
  | nil => rfl
  | cons x xs ih =>
    have hx : pred x = false := by simpa using h 0 (by simp)
    simp only [position, hx, Bool.false_eq_true, if_false, Option.map_eq_none']
    exact ih fun j hj => by
      simpa using h (j + 1) (by simp only [List.length_cons]; omega)

theorem presentSearch_spec {ss : Nat → Option Bool} {l : List Nat} {k i : Nat}
    (h : presentSearch ss l k = some i) :
    k ≤ i ∧ i < k + l.length ∧ (ss i).getD false = true ∧
      ∀ j, k ≤ j → j < i → (ss j).getD false = false := by
  induction l generalizing k with
  | nil => simp [presentSearch] at h
  | cons x xs ih =>
    by_cases hk : (ss k).getD false
    · simp [presentSearch, hk] at h
      subst h
      refine ⟨Nat.le_refl _, by simp only [List.length_cons]; omega, hk, ?_⟩
      intro j h1 h2
      omega
    · simp [presentSearch, hk] at h
      obtain ⟨h1, h2, h3, h4⟩ := ih h
      refine ⟨by omega, by simp only [List.length_cons]; omega, h3, ?_⟩
      intro j hj1 hj2
      rcases Nat.eq_or_lt_of_le hj1 with hjk | hlt
      · rw [← hjk]
        simpa using hk
      · exact h4 j hlt hj2

theorem presentSearch_isSome_of_exists (ss : Nat → Option Bool) (l : List Nat)
    (k j : Nat) (hj : j < l.length) (hs : (ss (k + j)).getD false = true) :
    ∃ i, presentSearch ss l k = some i := by
  induction l generalizing k j with
  | nil => simp at hj
  | cons x xs ih =>
    by_cases hk : (ss k).getD false
    · exact ⟨k, by simp [presentSearch, hk]⟩
    · cases j with
      | zero => exact absurd (by simpa using hs) hk
      | succ j =>
        obtain ⟨i, hi⟩ := ih (k + 1) j (by simp only [List.length_cons] at hj; omega)
          (by have e : k + 1 + j = k + (j + 1) := by omega
              rw [e]
              exact hs)
        exact ⟨i, by simp [presentSearch, hk, hi]⟩

theorem presentSearch_eq_none_of_all (ss : Nat → Option Bool) (l : List Nat) (k : Nat)
    (h : ∀ j, j < l.length → (ss (k + j)).getD false = false) :
    presentSearch ss l k = none := by
  induction l generalizing k with
  | nil => rfl
  | cons x xs ih =>
    have hk : (ss k).getD false = false := by simpa using h 0 (by simp)
    simp only [presentSearch, hk, Bool.false_eq_true, if_false]
    exact ih (k + 1) fun j hj => by
      have e : k + 1 + j = k + (j + 1) := by omega
      rw [e]
      exact h (j + 1) (by simp only [List.length_cons]; omega)

theorem presentSearch_defaulted (ss : Nat → Option Bool) (l : List Nat) (k : Nat) :
    presentSearch (fun i => some ((ss i).getD false)) l k = presentSearch ss l k := by
  induction l generalizing k with
  | nil => rfl
  | cons x xs ih => simp only [presentSearch, Option.getD_some, ih]

theorem pickLoop_error_eq (surface : Nat) (devices : List PhysicalDevice) (e : Error)
    (h : pickLoop surface devices = .error e) : e = noSuitableDeviceError := by
  induction devices with
  | nil =>
    simp only [pickLoop] at h
    exact (Except.error.inj h).symm
  | cons d rest ih =>
    simp only [pickLoop] at h
    cases hc : check_physical_device surface d with
    | ok u =>
      rw [hc] at h
      simp at h
    | error e₂ =>
      rw [hc] at h
      exact ih h

theorem pickLoopTraced_fst (surface : Nat) (devices : List PhysicalDevice) :
    (pickLoopTraced surface devices).1 = pickLoop surface devices := by
  induction devices with
  | nil => rfl
  | cons d rest ih =>
    simp only [pickLoopTraced, pickLoop]
    cases hc : check_physical_device surface d with
    | ok u => rfl
    | error e => simpa using ih

theorem pickLoop_ok_check (surface : Nat) (devices : List PhysicalDevice)
    (d : PhysicalDevice) (h : pickLoop surface devices = .ok d) :
    ∃ qfi, QueueFamilyIndices.get d.queueFamilies (d.surfaceSupport surface) = .ok qfi := by
  induction devices with
  | nil => simp [pickLoop] at h
  | cons a rest ih =>
    simp only [pickLoop] at h
    cases hc : check_physical_device surface a with
    | error e =>
      rw [hc] at h
      exact ih h
    | ok u =>
      rw [hc] at h
      have had : a = d := Except.ok.inj h
      subst had
      revert hc
      unfold check_physical_device
      cases hq : QueueFamilyIndices.get a.queueFamilies (a.surfaceSupport surface) with
      | ok qfi => exact fun _ => ⟨qfi, rfl⟩
      | error e => simp

/-! Claim theorems. -/

/-- C1: `pick_physical_device` iterates the enumerated devices in order,
runs the suitability check on each, returns the first device whose check
succeeds (first-fit — the result is exactly `List.find?` of the
suitability predicate, so later devices cannot affect the decision), and
fails with the no-suitable-device error when none passes. -/
theorem c1_pick_first_fit (surface : Nat) (devices : List PhysicalDevice) :
    pick_physical_device (.ok devices) surface =
      match devices.find? (suitable surface) with
      | some d => .ok d
      | none => .error noSuitableDeviceError := by
  simp only [pick_physical_device]
  induction devices with
  | nil => rfl
  | cons d rest ih =>
    by_cases hs : suitable surface d
    · rw [List.find?_cons_of_pos _ hs]
      have hok : ∃ u, check_physical_device surface d = .ok u := by
        revert hs
        unfold suitable
        cases check_physical_device surface d with
        | ok u => exact fun _ => ⟨u, rfl⟩
        | error e => simp
      obtain ⟨u, hu⟩ := hok
      simp [pickLoop, hu]
    · rw [List.find?_cons_of_neg _ hs]
      have herr : ∃ e, check_physical_device surface d = .error e := by
        revert hs
        unfold suitable
        cases check_physical_device surface d with
        | ok u => simp
        | error e => exact fun _ => ⟨e, rfl⟩
      obtain ⟨e, he⟩ := herr
      simp only [pickLoop, he]
      exact ih

/-- C4 counterexample: on an empty enumerated device list,
`pick_physical_device` does NOT fail with a distinct no-physical-devices
error — it produces exactly `noSuitableDeviceError`, the very same error
value an exhausted selection over unsuitable devices produces, refuting
the claimed distinction. -/
theorem c4_counterexample :
    pick_physical_device (Except.ok []) 0 = Except.error noSuitableDeviceError ∧
      pick_physical_device (Except.ok []) 0 =
        pick_physical_device (Except.ok [badDevice]) 0 :=
  ⟨rfl, rfl⟩

/-- C4 (amended): when the enumerated physical-device list is empty,
`pick_physical_device` fails with the (shared) no-suitable-device error
"No suitable physical device", without attempting any suitability check
(the instrumented loop records an empty list of checked devices). -/
theorem c4_empty_enumeration (surface : Nat) :
    pick_physical_device (Except.ok []) surface = Except.error noSuitableDeviceError ∧
      pickLoopTraced surface [] = (Except.error noSuitableDeviceError, []) :=
  ⟨rfl, rfl⟩

/-- C2: given a family list with a graphics-capable family (witnessed at
index `gi`) and a family whose surface-support query returns true
(witnessed at index `pi`), `QueueFamilyIndices::get` succeeds and
resolves `graphics` to the lowest graphics-capable index and `present`
to the lowest surface-supporting index (iterating from 0, coincidence
allowed); moreover a failed surface-support query (`none`) behaves
exactly like a successful query returning false — it is never propagated
as an error. -/
theorem c2_queue_family_indices_lowest (props : List Nat) (ss : Nat → Option Bool)
    (gi pi : Nat) (hgi : gi < props.length)
    (hg : queueFlagsContains (props.getD gi 0) GRAPHICS_BIT = true)
    (hpi : pi < props.length) (hp : (ss pi).getD false = true) :
    ∃ g p, QueueFamilyIndices.get props ss = .ok { graphics := g, present := p } ∧
      g < props.length ∧ queueFlagsContains (props.getD g 0) GRAPHICS_BIT = true ∧
      (∀ j, j < g → queueFlagsContains (props.getD j 0) GRAPHICS_BIT = false) ∧
      p < props.length ∧ (ss p).getD false = true ∧
      (∀ j, j < p → (ss j).getD false = false) ∧
      QueueFamilyIndices.get props ss =
        QueueFamilyIndices.get props (fun i => some ((ss i).getD false)) := by
  obtain ⟨g, hgpos⟩ :=
    position_isSome_of_exists (fun p => queueFlagsContains p GRAPHICS_BIT) gi hgi hg
  obtain ⟨p, hppos⟩ :=
    presentSearch_isSome_of_exists ss props 0 pi hpi (by simpa using hp)
  obtain ⟨hg1, hg2, hg3⟩ := position_spec hgpos
  obtain ⟨hp0, hp1, hp2, hp3⟩ := presentSearch_spec hppos
  refine ⟨g, p, ?_, hg1, hg2, hg3, by omega, hp2, ?_, ?_⟩
  · simp [QueueFamilyIndices.get, hgpos, hppos]
  · intro j hj
    exact hp3 j (Nat.zero_le j) hj
  · simp [QueueFamilyIndices.get, presentSearch_defaulted]

/-- C2 witness: with families `[0, 1]` (only family 1 graphics-capable)
and a surface-support query failing on family 0 and succeeding on
family 1, resolution yields the lowest matching indices (both 1, and
they coincide). -/
theorem c2_witness :
    ∃ g p,
      QueueFamilyIndices.get [0, 1] (fun i => if i == 0 then none else some true) =
        .ok { graphics := g, present := p } ∧
      g < (([0, 1] : List Nat)).length ∧
      queueFlagsContains (([0, 1] : List Nat).getD g 0) GRAPHICS_BIT = true ∧
      (∀ j, j < g →
        queueFlagsContains (([0, 1] : List Nat).getD j 0) GRAPHICS_BIT = false) ∧
      p < (([0, 1] : List Nat)).length ∧
      ((if p == 0 then none else some true : Option Bool)).getD false = true ∧
      (∀ j, j < p →
        ((if j == 0 then none else some true : Option Bool)).getD false = false) ∧
      QueueFamilyIndices.get [0, 1] (fun i => if i == 0 then none else some true) =
        QueueFamilyIndices.get [0, 1]
          (fun i => some (((if i == 0 then none else some true : Option Bool)).getD false)) :=
  c2_queue_family_indices_lowest [0, 1] (fun i => if i == 0 then none else some true)
    1 1 (by decide) (by decide) (by decide) (by decide)

/-- C3: a family list with no graphics-capable family, or none whose
surface-support query returns true, makes the suitability check fail with
the missing-queue-families error; such a failure makes the selection loop
skip the device and continue with the rest, and no selection-loop error
is ever anything but the no-suitable-device error (so the suitability
error never surfaces past the selector). -/
theorem c3_missing_queue_families (props : List Nat) (ss : Nat → Option Bool)
    (h : (∀ j, j < props.length →
            queueFlagsContains (props.getD j 0) GRAPHICS_BIT = false) ∨
         (∀ j, j < props.length → (ss j).getD false = false)) :
    QueueFamilyIndices.get props ss =
        .error { msg := "Missing required queue families" } ∧
      (∀ surface nm rest,
        pickLoop surface
            ({ name := nm, queueFamilies := props, surfaceSupport := fun _ => ss } :: rest) =
          pickLoop surface rest) ∧
      (∀ surface devices e, pickLoop surface devices = .error e →
        e = noSuitableDeviceError) := by
  have herr : QueueFamilyIndices.get props ss =
      .error { msg := "Missing required queue families" } := by
    rcases h with hleft | hright
    · have hpos : position (fun p => queueFlagsContains p GRAPHICS_BIT) props = none :=
        position_eq_none_of_all hleft
      simp [QueueFamilyIndices.get, hpos]
    · have hpres : presentSearch ss props 0 = none :=
        presentSearch_eq_none_of_all ss props 0 fun j hj => by
          simpa using hright j hj
      cases hpos : position (fun p => queueFlagsContains p GRAPHICS_BIT) props <;>
        simp [QueueFamilyIndices.get, hpos, hpres]
  refine ⟨herr, ?_, pickLoop_error_eq⟩
  intro surface nm rest
  simp [pickLoop, check_physical_device, herr]

/-- C3 witness: a single queue family with no graphics capability fails
the suitability check, and the selection loop over `[that device]`
continues exactly as over `[]`. -/
theorem c3_witness :
    QueueFamilyIndices.get [0] (fun _ => some true) =
        .error { msg := "Missing required queue families" } ∧
      (∀ surface nm rest,
        pickLoop surface
            ({ name := nm, queueFamilies := [0],
               surfaceSupport := fun _ => fun _ => some true } :: rest) =
          pickLoop surface rest) ∧
      (∀ surface devices e, pickLoop surface devices = .error e →
        e = noSuitableDeviceError) :=
  c3_missing_queue_families [0] (fun _ => some true) (Or.inl (by decide))

/-- C5: with validation enabled, once enumeration of the version, the
required extensions and the available layers has succeeded, instance
creation is gated on membership of "VK_LAYER_KHRONOS_validation" in the
enumerated layer list: if absent, `create_instance` fails with the
unsupported-validation-layer error no matter what the native
instance-creation and messenger calls would return (no instance is
created, no silent downgrade); if present, the gate passes and, when the
native calls succeed, instance creation succeeds. -/
theorem c5_validation_layer_gate (env : InstanceEnv) (v : Option Nat)
    (exts layers : List String)
    (hv : env.tryEnumerateInstanceVersion = .ok v)
    (he : env.enumerateRequiredExtensions = .ok exts)
    (hl : env.enumerateInstanceLayerProperties = .ok layers) :
    (VALIDATION_LAYER_NAME ∉ layers →
      ∀ f m,
        create_instance
            { env with
              createInstanceNative := f,
              createDebugUtilsMessengerNative := m } true =
          .error (Error.new "Validation layers requested but not supported.")) ∧
    (VALIDATION_LAYER_NAME ∈ layers →
      ∀ i m,
        env.createInstanceNative
            (assemble_instance_info env.isMacos true (v.getD API_VERSION_1_0) exts) =
          .ok i →
        env.createDebugUtilsMessengerNative = .ok m →
        create_instance env true = .ok (i, some m)) := by
  constructor
  · intro hmem f m
    simp [create_instance, hv, he, hl, hmem]
  · intro hmem i m hi hm
    simp [create_instance, hv, he, hl, hmem, hi, hm]

/-- C5 witness: a concrete environment whose layer list lacks the
validation layer makes `create_instance` fail with the
unsupported-validation-layer error. -/
theorem c5_witness :
    create_instance envNoValidationLayer true =
      Except.error (Error.new "Validation layers requested but not supported.") :=
  (c5_validation_layer_gate envNoValidationLayer none ["VK_KHR_surface"]
        ["VK_LAYER_MESA_overlay"] rfl rfl rfl).1
    (by decide) envNoValidationLayer.createInstanceNative
    envNoValidationLayer.createDebugUtilsMessengerNative

/-- C6: the queue-creation descriptors built by `create_device` are
exactly one when graphics and present coincide and exactly two when they
differ, and every descriptor requests exactly one queue at priority 1.0. -/
theorem c6_queue_descriptor_dedup (indices : QueueFamilyIndices) :
    (indices.graphics = indices.present → (device_queue_infos indices).length = 1) ∧
    (indices.graphics ≠ indices.present → (device_queue_infos indices).length = 2) ∧
    ∀ q ∈ device_queue_infos indices,
      q.queue_count = 1 ∧ q.p_queue_priorities = [(1 : ℚ)] := by
  refine ⟨?_, ?_, ?_⟩
  · intro h
    simp [device_queue_infos, unique_queue_indices, h]
  · intro h
    simp [device_queue_infos, unique_queue_indices, h]
  · intro q hq
    simp only [device_queue_infos, List.mem_map] at hq
    obtain ⟨i, _, rfl⟩ := hq
    exact ⟨rfl, rfl⟩

/-- C6 witness: coinciding indices give one descriptor, distinct indices
give two, and the descriptor for family 0 requests one queue at
priority 1. -/
theorem c6_witness :
    (device_queue_infos { graphics := 0, present := 0 }).length = 1 ∧
      (device_queue_infos { graphics := 0, present := 1 }).length = 2 ∧
      ∀ q ∈ device_queue_infos { graphics := 0, present := 0 },
        q.queue_count = 1 ∧ q.p_queue_priorities = [(1 : ℚ)] :=
  ⟨(c6_queue_descriptor_dedup { graphics := 0, present := 0 }).1 rfl,
    (c6_queue_descriptor_dedup { graphics := 0, present := 1 }).2.1 (by decide),
    (c6_queue_descriptor_dedup { graphics := 0, present := 0 }).2.2⟩

/-- C7: for every bootstrap state, the teardown trace destroys exactly
the optional handles that are `Some` plus the instance, and its order is
a sublist of messenger-device-surface-instance: the debug channel and
the device (when present) are destroyed before the surface, and the
surface before the instance. -/
theorem c7_destroy_order (s : VulkanState) :
    (destroy s).Sublist
        [DestroyAction.debugUtilsMessenger, DestroyAction.device,
          DestroyAction.surface, DestroyAction.inst] ∧
      (DestroyAction.debugUtilsMessenger ∈ destroy s ↔
        s.debug_utils_messenger.isSome = true) ∧
      (DestroyAction.device ∈ destroy s ↔ s.device.isSome = true) ∧
      (DestroyAction.surface ∈ destroy s ↔ s.surface.isSome = true) ∧
      DestroyAction.inst ∈ destroy s := by
  obtain ⟨dm, surf, dev, pd, gq, pq⟩ := s
  cases dm <;> cases dev <;> cases surf <;>
    refine ⟨by simp [destroy]; try decide, by simp [destroy], by simp [destroy],
      by simp [destroy], by simp [destroy]⟩

/-- C8: the debug callback's routing is a four-way threshold comparison
on the severity bits — error at ≥ ERROR, warn at ≥ WARNING (below
ERROR), debug at ≥ INFO (below WARNING), trace below INFO — with a
severity equal to a threshold landing in that threshold's (higher)
bucket; the logged record carries the category flags and the message
text, and the callback returns `vk::FALSE`. -/
theorem c8_debug_callback_routing (severity typeFlags : Nat) (message : String) :
    (debug_callback severity typeFlags message).1.category = typeFlags ∧
      (debug_callback severity typeFlags message).1.text = message ∧
      (debug_callback severity typeFlags message).2 = vkFALSE ∧
      ((debug_callback severity typeFlags message).1.level = LogLevel.error ↔
        SEVERITY_ERROR ≤ severity) ∧
      ((debug_callback severity typeFlags message).1.level = LogLevel.warn ↔
        SEVERITY_WARNING ≤ severity ∧ severity < SEVERITY_ERROR) ∧
      ((debug_callback severity typeFlags message).1.level = LogLevel.debug ↔
        SEVERITY_INFO ≤ severity ∧ severity < SEVERITY_WARNING) ∧
      ((debug_callback severity typeFlags message).1.level = LogLevel.trace ↔
        severity < SEVERITY_INFO) := by
  refine ⟨rfl, rfl, rfl, ?_, ?_, ?_, ?_⟩ <;>
    · by_cases h1 : SEVERITY_ERROR ≤ severity <;>
        by_cases h2 : SEVERITY_WARNING ≤ severity <;>
          by_cases h3 : SEVERITY_INFO ≤ severity <;>
            simp only [debug_callback, h1, h2, h3, if_true, if_false, ite_true,
              ite_false] <;>
              simp_all [SEVERITY_ERROR, SEVERITY_WARNING, SEVERITY_INFO] <;> omega

theorem pick_ok_get (enumerated : Except VkResult (List PhysicalDevice))
    (surface : Nat) (d : PhysicalDevice)
    (h : pick_physical_device enumerated surface = .ok d) :
    ∃ qfi, QueueFamilyIndices.get d.queueFamilies (d.surfaceSupport surface) = .ok qfi := by
  unfold pick_physical_device at h
  cases enumerated with
  | error r => simp at h
  | ok devices => exact pickLoop_ok_check surface devices d h

/-- C9: the `.unwrap()` on `QueueFamilyIndices::get` inside
`create_device` can never panic: whenever `pick_physical_device` returns
a device its suitability check succeeded, and the queue-family and
surface-support queries of the model are deterministic for a fixed
device and surface, so the same `get` succeeds again — for every
environment and state the outcome is success or an error, never the
panic. -/
theorem c9_unwrap_never_panics (env : DeviceEnv) (s : VulkanState) :
    (create_device env s).1 = CDResult.ok ∨
      ∃ e, (create_device env s).1 = CDResult.err e := by
  unfold create_device
  split
  · exact Or.inr ⟨_, rfl⟩
  · split
    · exact Or.inr ⟨_, rfl⟩
    · split
      · exact Or.inr ⟨_, rfl⟩
      · split
        · rename_i pd hpick xx ee hget
          exfalso
          obtain ⟨qfi, hq2⟩ := pick_ok_get _ _ _ hpick
          rw [hq2] at hget
          cases hget
        · dsimp only
          split
          · exact Or.inr ⟨_, rfl⟩
          · exact Or.inl rfl

/-- C10: every error return of `create_device` — including the
no-surface-bound call, which yields an error result (not a panic) —
leaves the bootstrap state exactly as it was; the device,
physical-device and queue fields are written only on the success path. -/
theorem c10_error_preserves_state (env : DeviceEnv) (s : VulkanState) :
    (∀ e, (create_device env s).1 = CDResult.err e → (create_device env s).2 = s) ∧
      (s.surface = none →
        create_device env s =
          (CDResult.err (Error.new "Can't create device without a surface"), s)) := by
  constructor
  · intro e
    unfold create_device
    split
    · intro _
      rfl
    · split
      · intro _
        rfl
      · split
        · intro _
          rfl
        · split
          · intro _
            rfl
          · dsimp only
            split
            · intro _
              rfl
            · intro h
              exact absurd h (by simp)
  · intro h
    unfold create_device
    rw [h]

/-- C10 witness: a failing physical-device enumeration returns an error
and leaves the state untouched, and a call without a bound surface
returns the dedicated error with the state untouched. -/
theorem c10_witness :
    (create_device envEnumFail stateWithSurface).2 = stateWithSurface ∧
      create_device envEnumFail stateNoSurface =
        (CDResult.err (Error.new "Can't create device without a surface"),
          stateNoSurface) :=
  ⟨(c10_error_preserves_state envEnumFail stateWithSurface).1
      (Error.ofVk "ERROR_OUT_OF_HOST_MEMORY") rfl,
    (c10_error_preserves_state envEnumFail stateNoSurface).2 rfl⟩

end Wunderscore
